import Mathlib

/-!
Verification development for the express-error-handler repository.

The JavaScript sources are shallowly embedded: each function of
`error-handler.js` (and, where a claim depends on it, the variant module
given as `part_002`) becomes a Lean definition over explicit data.
Side effects (response writes, file streaming, timers, process exit) are
recorded as an explicit list of events, in the order the code performs
them; everything in such a list happens synchronously, deferred work is
represented either by an event payload (a timer armed with the action it
will take) or, for the `part_002` variant, by a separate on-stream-end
event list.  JavaScript truthiness of numbers and strings is modelled
explicitly (`Option` for `undefined`, `0` and `""` falsy).
-/

namespace EEH

/-- JS string coercion of a possibly-undefined value: String(undefined) = "undefined". -/
def jsStr (o : Option String) : String := o.getD "undefined"

/-- JS `||` on number-or-undefined values: `0` and `undefined` are falsy. -/
def jsOr (a b : Option Nat) : Option Nat :=
  match a with
  | some n => if n = 0 then b else some n
  | none => b

/-- ASCII model of JS `String.prototype.toLowerCase`. -/
def jsToLower (s : String) : String := String.mk (s.data.map Char.toLower)

/-- Whitespace recognizer for the JS trim / parseInt models. -/
def jsWhitespace (c : Char) : Bool := c = ' ' || c = '\t' || c = '\n' || c = '\r'

/-- ASCII model of JS `String.prototype.trim`. -/
def jsTrim (s : String) : String :=
  String.mk (((s.data.dropWhile jsWhitespace).reverse.dropWhile jsWhitespace).reverse)

/-- The leading run of decimal digits of a character list. -/
def takeDigits : List Char → List Char
  | [] => []
  | c :: cs => if c.isDigit then c :: takeDigits cs else []

/-- Numeric value of a list of decimal digits. -/
def digitsToNat (cs : List Char) : Nat :=
  cs.foldl (fun a c => a * 10 + (c.toNat - 48)) 0

/-- Model of JS `parseInt(s, 10)`: skip leading whitespace, optional sign,
then the longest digit run; `none` models `NaN`. -/
def jsParseInt (s : String) : Option Int :=
  let cs := s.data.dropWhile jsWhitespace
  match cs with
  | '-' :: rest =>
    let ds := takeDigits rest
    if ds = [] then none else some (-(digitsToNat ds : Int))
  | '+' :: rest =>
    let ds := takeDigits rest
    if ds = [] then none else some (digitsToNat ds : Int)
  | _ =>
    let ds := takeDigits cs
    if ds = [] then none else some (digitsToNat ds : Int)

/-- A Retry-After header value: integer seconds or an HTTP-date string
(`error-handler.js` returns either a number or the raw env string). -/
inductive RetryVal where
  | seconds (n : Int) : RetryVal
  | date (s : String) : RetryVal
deriving DecidableEq

/-- JS truthiness of a Retry-After value (`0` and `""` are falsy). -/
def truthyRetryVal : RetryVal → Bool
  | .seconds n => !(n == 0)
  | .date s => !(s == "")

/-- `isClientError` from error-handler.js line 31: `status >= 400 && status <= 499`. -/
def isClientError (status : Nat) : Bool :=
  decide (400 ≤ status) && decide (status ≤ 499)

/-- `isClientError` applied to a possibly-undefined status
(`undefined >= 400` is false in JS). -/
def isClientErrorOpt : Option Nat → Bool
  | some n => isClientError n
  | none => false

/-- The observable actions of the embedded code, in program order. -/
inductive Event where
  /-- `res.header(maintHeader())`: the maintenance Retry-After header write. -/
  | setHeaderEv (h : Option RetryVal) : Event
  /-- `res.status(status)` at the top of the error handler. -/
  | setStatusEv (s : Option Nat) : Event
  /-- a custom handler registered for the status is invoked. -/
  | invokeHandlerEv (s : Option Nat) : Event
  /-- `res.render(view, err)`. -/
  | renderViewEv (v : String) : Event
  /-- `sendFile(staticFile, res)`: a file stream is piped to the response. -/
  | sendFileEv (f : String) : Event
  /-- `res.statusCode = statusCode` inside `renderDefault`. -/
  | resStatusCodeEv (s : Option Nat) : Event
  /-- `send(statusCode, err, res, o)` body write (restify path). -/
  | sendEv (s : Option Nat) : Event
  /-- `res.format({...})` content negotiation (express path). -/
  | formatEv (s : Option Nat) : Event
  /-- `resumeOrClose(status)` is invoked, i.e. the continue/shutdown
  predicate is evaluated. -/
  | resumeOrCloseEv (s : Option Nat) : Event
  /-- `close(o, exit)`: the shutdown coordinator is entered. -/
  | closeEv : Event
  /-- `o.server.close(cb)` is called. -/
  | serverCloseEv : Event
  /-- `process.exit(code)` runs; the process terminates here, so nothing
  after this event in the same list can ever run in JS. -/
  | processExitEv (code : Nat) : Event
  /-- the user-supplied `options.shutdown` override is invoked. -/
  | shutdownOverrideEv : Event
  /-- `setTimeout` arms a timer of `ms` milliseconds whose callback will
  `process.exit(code)`. -/
  | armTimerEv (ms : Nat) (code : Nat) : Event
deriving DecidableEq

/-- The options record after `mixIn({}, defaults, options)`.  Functions
are modelled by their observable data: a handler map records presence,
`o.maintenance.enabled()` / `o.maintenance.retryAfter()` by their
results for this invocation, `o.server`/`o.shutdown` by presence. -/
structure Config where
  /-- `o.handlers[status]` is a function. -/
  handlers : Nat → Bool
  /-- `o.views[status]` for numeric keys. -/
  views : Nat → Option String
  /-- `o.static[status]` for numeric keys. -/
  static : Nat → Option String
  /-- `o.views['default']`. -/
  defaultView : Option String
  /-- `o.static['default']`. -/
  defaultStatic : Option String
  /-- `o.timeout` (ms), default 3000. -/
  timeout : Nat
  /-- `o.exitStatus`, default 1. -/
  exitStatus : Nat
  /-- `o.server && typeof o.server.close === 'function'`. -/
  serverHasClose : Bool
  /-- `o.shutdown` is set. -/
  shutdownOverride : Bool
  /-- `o.serializer` is set. -/
  serializerSet : Bool
  /-- `o.framework`. -/
  framework : String
  /-- `typeof o.maintenance.enabled === 'function'`. -/
  maintEnabledIsFn : Bool
  /-- the value `o.maintenance.enabled()` returns. -/
  maintEnabled : Bool
  /-- `typeof o.maintenance.retryAfter === 'function'`. -/
  maintRetryAfterIsFn : Bool
  /-- the value `o.maintenance.retryAfter()` returns. -/
  maintRetryAfterResult : RetryVal

/-- The error argument: `err.status` and `err.message` may be undefined. -/
structure Err where
  status : Option Nat
  message : Option String
deriving DecidableEq

/-- The response object, as far as status derivation reads it. -/
structure Res where
  statusCode : Option Nat
deriving DecidableEq

/-- `err && err.status || res && res.statusCode` (error-handler.js line 333). -/
def derivedStatus (err : Option Err) (res : Option Res) : Option Nat :=
  jsOr (err.bind Err.status) (res.bind Res.statusCode)

/-- Map lookup keyed by a possibly-undefined status (an undefined key
finds nothing in the user-supplied numeric-keyed maps). -/
def lookupHandlers (m : Nat → Bool) : Option Nat → Bool
  | some n => m n
  | none => false

/-- Map lookup for view / static maps keyed by a possibly-undefined status. -/
def lookupOpt (m : Nat → Option String) : Option Nat → Option String
  | some n => m n
  | none => none

/-- `isMaintenance(status)` from error-handler.js line 294:
`status === 503 && typeof o.maintenance.enabled === 'function' && o.maintenance.enabled()`. -/
def isMaintenance (o : Config) (status : Option Nat) : Bool :=
  status == some 503 && o.maintEnabledIsFn && o.maintEnabled

/-- `maintHeader()` from error-handler.js line 305: the Retry-After header
value, or none when `retryAfter` is not a function or returns a falsy value. -/
def maintHeaderVal (o : Config) : Option RetryVal :=
  if o.maintRetryAfterIsFn && truthyRetryVal o.maintRetryAfterResult then
    some o.maintRetryAfterResult
  else none

/-- `exit` from error-handler.js line 281: the user shutdown override if
given, otherwise arm a `setTimeout` that will `process.exit(o.exitStatus)`
after `o.timeout` ms. -/
def exitTrace (o : Config) : List Event :=
  if o.shutdownOverride then [Event.shutdownOverrideEv]
  else [Event.armTimerEv o.timeout o.exitStatus]

/-- `close(o, exit)` from error-handler.js line 44.  With a closable
server, `server.close(cb)` is called and the `finally` block then runs
`process.exit(o.exitStatus)` synchronously, so neither the close callback
nor the trailing `exit(o)` ever runs; without one, `exit(o)` runs. -/
def closeTrace (o : Config) : List Event :=
  Event.closeEv ::
    (if o.serverHasClose then
      [Event.serverCloseEv, Event.processExitEv o.exitStatus]
     else exitTrace o)

/-- `resumeOrClose(status)` from error-handler.js line 383: evaluate the
continue/shutdown predicate and enter `close` unless the status is a
client error or a maintenance condition. -/
def resumeOrCloseTrace (o : Config) (status : Option Nat) : List Event :=
  Event.resumeOrCloseEv status ::
    (if !(isClientErrorOpt status) && !(isMaintenance o status) then closeTrace o else [])

/-- `renderDefault(statusCode)` from error-handler.js line 339: set
`res.statusCode`, then default view, else default static file, else the
framework-specific body write. -/
def renderDefaultTrace (o : Config) (statusCode : Option Nat) : List Event :=
  Event.resStatusCodeEv statusCode ::
    (match o.defaultView with
     | some v => [Event.renderViewEv v]
     | none =>
       match o.defaultStatic with
       | some f => [Event.sendFileEv f]
       | none =>
         (if o.framework == "restify" then [Event.sendEv statusCode] else [])
         ++ (if o.framework == "express" then [Event.formatEv statusCode] else []))

/-- The dispatch chain of `errorHandler` after `res.status(status)`
(error-handler.js lines 402-439): custom handler, else custom view, else
custom static file (each followed by a synchronous `resumeOrClose`), else
the default render for client/maintenance statuses, else a default render
forced to 500 followed unconditionally by `close(o, exit)`. -/
def dispatchTrace (o : Config) (status : Option Nat) : List Event :=
  if lookupHandlers o.handlers status then
    Event.invokeHandlerEv status :: resumeOrCloseTrace o status
  else
    match lookupOpt o.views status with
    | some v => Event.renderViewEv v :: resumeOrCloseTrace o status
    | none =>
      match lookupOpt o.static status with
      | some f => Event.sendFileEv f :: resumeOrCloseTrace o status
      | none =>
        if isClientErrorOpt status || isMaintenance o status then
          renderDefaultTrace o status
        else
          renderDefaultTrace o (some 500) ++ closeTrace o

/-- `errorHandler(err, req, res, next)` from error-handler.js line 328,
as the list of events it performs synchronously. -/
def errorHandlerTrace (o : Config) (err : Option Err) (res : Option Res) : List Event :=
  let status := derivedStatus err res
  match res with
  | none => resumeOrCloseTrace o status
  | some _ =>
    (if isMaintenance o status then [Event.setHeaderEv (maintHeaderVal o)] else [])
    ++ Event.setStatusEv status :: dispatchTrace o status

/-- Count of events satisfying a predicate, over a trace. -/
def countEv (p : Event → Bool) : List Event → Nat
  | [] => 0
  | e :: es => (if p e then 1 else 0) + countEv p es

def isCloseEv : Event → Bool
  | .closeEv => true
  | _ => false

def isResumeEv : Event → Bool
  | .resumeOrCloseEv _ => true
  | _ => false

def isRenderViewEv : Event → Bool
  | .renderViewEv _ => true
  | _ => false

def isSendFileEv : Event → Bool
  | .sendFileEv _ => true
  | _ => false

def isResStatusCodeEv : Event → Bool
  | .resStatusCodeEv _ => true
  | _ => false

def isProcessExitEv : Event → Bool
  | .processExitEv _ => true
  | _ => false

def isArmTimerEv : Event → Bool
  | .armTimerEv _ _ => true
  | _ => false

/-! ### The `part_002` variant of the error handler

The repository contains a second variant of the module (source file
`part_002`).  Its `close`, `sendFile`, `send`, `renderDefault` and status
derivation match the main file; it differs in the continue predicate
(`shouldContinue`), in having no maintenance check inside the handler,
and in deferring the static-file `resumeOrClose` to the stream `end`
event.  Its synchronous events and its on-stream-end callback events are
kept separate. -/

/-- `shouldContinue(status)` from part_002 line 262:
`isClientError(status) || status === 503`. -/
def shouldContinue (status : Option Nat) : Bool :=
  isClientErrorOpt status || status == some 503

/-- `resumeOrClose(status)` from part_002 line 267. -/
def resumeOrCloseTraceP2 (o : Config) (status : Option Nat) : List Event :=
  Event.resumeOrCloseEv status ::
    (if !(shouldContinue status) then closeTrace o else [])

/-- The events of one part_002 `errorHandler` invocation: the events run
synchronously, and the events the registered stream `end` callback will
run when the static-file stream completes. -/
structure TraceP2 where
  sync : List Event
  onStreamEnd : List Event
deriving DecidableEq

/-- `errorHandler(err, req, res, next)` from part_002 line 207.  Only the
static-file branch registers an `end` callback (part_002 lines 297-302);
every other branch completes synchronously. -/
def errorHandlerTraceP2 (o : Config) (err : Option Err) (res : Option Res) : TraceP2 :=
  let status := derivedStatus err res
  match res with
  | none => ⟨resumeOrCloseTraceP2 o status, []⟩
  | some _ =>
    if lookupHandlers o.handlers status then
      ⟨Event.setStatusEv status :: Event.invokeHandlerEv status ::
        resumeOrCloseTraceP2 o status, []⟩
    else
      match lookupOpt o.views status with
      | some v =>
        ⟨Event.setStatusEv status :: Event.renderViewEv v ::
          resumeOrCloseTraceP2 o status, []⟩
      | none =>
        match lookupOpt o.static status with
        | some f =>
          ⟨[Event.setStatusEv status, Event.sendFileEv f],
            resumeOrCloseTraceP2 o status⟩
        | none =>
          if shouldContinue status then
            ⟨Event.setStatusEv status :: renderDefaultTrace o status, []⟩
          else
            ⟨Event.setStatusEv status ::
              (renderDefaultTrace o (some 500) ++ closeTrace o), []⟩

/-! ### The maintenance oracle -/

/-- The `negative` lookup table of `maintenanceState`
(error-handler.js line 114). -/
def isNegativeKey (s : String) : Bool :=
  s == "0" || s == "false" || s == "no" || s == "undefined"

/-- The read path of `maintenanceState` (error-handler.js line 109), the
default `o.maintenance.enabled`: env value truthy and its lowercase form
not in the negative table. -/
def maintenanceStateRead (env : Option String) : Bool :=
  match env with
  | none => false
  | some v => !(v == "") && !(isNegativeKey (jsToLower v))

/-- The default `status` of the part_002 maintenance middleware
(part_002 line 369): `('' + env).trim().toLowerCase() === 'true'`. -/
def maintStatusDefaultP2 (env : Option String) : Bool :=
  jsToLower (jsTrim (jsStr env)) == "true"

/-- `maintenanceRetryAfter` (error-handler.js line 136), the default
`o.maintenance.retryAfter`.  `dateParse` is the `Date.parse` oracle of
the JS runtime (`none` models `NaN`): first `parseInt` the env value,
collapsing zero or negative parses to the fallback 3600; if the parse is
`NaN`, return the env string verbatim when `Date.parse` of it is truthy,
else the fallback. -/
def maintenanceRetryAfter (env : Option String) (dateParse : String → Option Int) : RetryVal :=
  match jsParseInt (jsStr env) with
  | some n => if n = 0 ∨ n < 0 then .seconds 3600 else .seconds n
  | none =>
    match env with
    | none => .seconds 3600
    | some v =>
      match dateParse v with
      | some t => if t = 0 then .seconds 3600 else .date v
      | none => .seconds 3600

/-! ### The maintenance API state (error-handler.js)

`maintenance._maintEnabled` is the process-wide policy slot: `undefined`
until some `createHandler(options)` stores `o.maintenance.enabled` there
(error-handler.js line 316).  The default predicate is the
`maintenanceState` function itself; an override is any other function,
distinguished because `maintenance.status` compares the slot against
`maintenanceState` by reference (line 468). -/

/-- A value the `_maintEnabled` slot can hold: the default
`maintenanceState` function, or a user override (modelled by the value
it returns). -/
inductive MaintFn where
  | defaultFn : MaintFn
  | overrideFn (result : Bool) : MaintFn
deriving DecidableEq

/-- Calling a `_maintEnabled` policy function. -/
def evalMaintFn : MaintFn → Option String → Bool
  | .defaultFn, env => maintenanceStateRead env
  | .overrideFn b, _ => b

/-- Process-wide state the maintenance API reads and writes: the
`_maintEnabled` slot (`none` when it is undefined or not a function) and
the ERR_HANDLER_MAINT_ENABLED environment variable. -/
structure MaintAPIState where
  maintEnabledSlot : Option MaintFn
  env : Option String
deriving DecidableEq

/-- The message of the courtesy throw (error-handler.js line 478). -/
def maintOverrideMsg : String :=
  "options.maintenance.enabled was overridden, so the caller manages the maintenance state."

/-- `maintenance.status(state)` from error-handler.js line 454; with no
argument it reports the active policy (false when none is installed);
with an argument it throws when the installed policy is an override, and
otherwise delegates to the default `maintenanceState` setter. -/
def maintenanceStatus (st : MaintAPIState) (arg : Option String) :
    Except String (Bool × MaintAPIState) :=
  let enabled := match st.maintEnabledSlot with
    | some f => evalMaintFn f st.env
    | none => false
  match arg with
  | none => .ok (enabled, st)
  | some state =>
    match st.maintEnabledSlot with
    | some (.overrideFn _) => .error maintOverrideMsg
    | _ => .ok (maintenanceStateRead (some state), { st with env := some state })

/-- The result of querying `maintenance.status()` with no argument. -/
def statusQueryB (st : MaintAPIState) : Bool :=
  match maintenanceStatus st none with
  | .ok (b, _) => b
  | .error _ => false

/-- The operations that touch the maintenance API state:
`createHandler(options)` stores `o.maintenance.enabled` in the slot
(line 316); constructing the maintenance middleware `maintenance(message)`
(line 163) changes nothing; the environment variable may be set
externally; `maintenance.status(state)` runs the setter path. -/
inductive MaintOp where
  | createHandlerOp (enabledVal : Option MaintFn) : MaintOp
  | maintMiddlewareCtorOp (message : Option String) : MaintOp
  | setEnvOp (v : Option String) : MaintOp
  | statusSetOp (state : String) : MaintOp
deriving DecidableEq

/-- State transition of one maintenance API operation. -/
def maintStep (st : MaintAPIState) : MaintOp → MaintAPIState
  | .createHandlerOp e => { st with maintEnabledSlot := e }
  | .maintMiddlewareCtorOp _ => st
  | .setEnvOp v => { st with env := v }
  | .statusSetOp s =>
    match maintenanceStatus st (some s) with
    | .ok (_, st2) => st2
    | .error _ => st

def isMaintMiddlewareCtor : MaintOp → Bool
  | .maintMiddlewareCtorOp _ => true
  | _ => false

def isCreateHandlerOp : MaintOp → Bool
  | .createHandlerOp _ => true
  | _ => false

/-- State at module load: `_maintEnabled` undefined, env as inherited. -/
def initMaintState (env0 : Option String) : MaintAPIState :=
  ⟨none, env0⟩

/-! ### The handler factory result -/

/-- What `createHandler(options)` returns (error-handler.js lines
442-451): the express error handler, the restify adapter, or — when the
framework matches neither — `undefined` by falling off the end. -/
inductive HandlerKind where
  | expressKind : HandlerKind
  | restifyKind : HandlerKind
  | undefKind : HandlerKind
deriving DecidableEq

/-- `o.framework` after `mixIn({}, defaults, options)`: the option when
present, else the default "express". -/
def mixedFramework (optFramework : Option String) : String :=
  optFramework.getD "express"

/-- The shape of `createHandler(options)`'s return value. -/
def createHandlerResult (optFramework : Option String) : HandlerKind :=
  let fw := mixedFramework optFramework
  if fw == "express" then .expressKind
  else if fw == "restify" then .restifyKind
  else .undefKind

/-! ### Concrete fixtures used to instantiate the theorems -/

/-- `createHandler()` with no options: every field at its default. -/
def cfg0 : Config :=
  { handlers := fun _ => false
    views := fun _ => none
    static := fun _ => none
    defaultView := none
    defaultStatic := none
    timeout := 3000
    exitStatus := 1
    serverHasClose := false
    shutdownOverride := false
    serializerSet := false
    framework := "express"
    maintEnabledIsFn := true
    maintEnabled := false
    maintRetryAfterIsFn := true
    maintRetryAfterResult := .seconds 3600 }

/-- A default configuration with a static file registered for status 500. -/
def cfgC3 : Config :=
  { cfg0 with static := fun n => if n = 500 then some "500.html" else none }

/-- A configuration with both a shutdown override and a closable server. -/
def cfgC4 : Config :=
  { cfg0 with shutdownOverride := true, serverHasClose := true }

/-- A configuration with a shutdown override and no server. -/
def cfgC4b : Config :=
  { cfg0 with shutdownOverride := true }

/-- A configuration with both a custom handler and a custom view for 404. -/
def cfgC5 : Config :=
  { cfg0 with
    handlers := fun n => n == 404
    views := fun n => if n = 404 then some "err404view" else none }

def err404 : Err := ⟨some 404, none⟩

def err511 : Err := ⟨some 511, none⟩

def errC3 : Err := ⟨some 500, none⟩

def res0 : Res := ⟨none⟩

/-- A concrete `Date.parse` oracle that recognizes exactly the RFC2822
date used in the spec examples. -/
def dp0 : String → Option Int := fun s =>
  if s = "Fri, 31 Dec 1999 23:59:59 GMT" then some 946684799000 else none

/-- The op sequence of the C9 counterexample: the env flag is set and an
error handler is constructed with default options; no maintenance
middleware is ever constructed. -/
def opsC9 : List MaintOp :=
  [MaintOp.setEnvOp (some "TRUE"), MaintOp.createHandlerOp (some MaintFn.defaultFn)]

/-- An op sequence that never runs `createHandler`. -/
def opsC9b : List MaintOp :=
  [MaintOp.setEnvOp (some "yes"), MaintOp.maintMiddlewareCtorOp none]

/-! ### Helper lemmas -/

theorem countEv_append (p : Event → Bool) (a b : List Event) :
    countEv p (a ++ b) = countEv p a + countEv p b := by
  induction a with
  | nil => simp [countEv]
  | cons e es ih => simp [countEv, ih]; omega

theorem isClientErrorOpt_true_of {s : Nat} (h1 : 400 ≤ s) (h2 : s ≤ 499) :
    isClientErrorOpt (some s) = true := by
  simp [isClientErrorOpt, isClientError]; omega

theorem isClientErrorOpt_false_of {s : Nat} (h : 500 ≤ s) :
    isClientErrorOpt (some s) = false := by
  simp [isClientErrorOpt, isClientError]; omega

theorem countClose_closeTrace (o : Config) : countEv isCloseEv (closeTrace o) = 1 := by
  cases h1 : o.serverHasClose <;> cases h2 : o.shutdownOverride <;>
    simp [closeTrace, exitTrace, countEv, isCloseEv, h1, h2]

theorem countResume_closeTrace (o : Config) : countEv isResumeEv (closeTrace o) = 0 := by
  cases h1 : o.serverHasClose <;> cases h2 : o.shutdownOverride <;>
    simp [closeTrace, exitTrace, countEv, isResumeEv, h1, h2]

theorem countView_closeTrace (o : Config) : countEv isRenderViewEv (closeTrace o) = 0 := by
  cases h1 : o.serverHasClose <;> cases h2 : o.shutdownOverride <;>
    simp [closeTrace, exitTrace, countEv, isRenderViewEv, h1, h2]

theorem countClose_renderDefault (o : Config) (sc : Option Nat) :
    countEv isCloseEv (renderDefaultTrace o sc) = 0 := by
  cases hv : o.defaultView <;> cases hs : o.defaultStatic <;>
    cases hr : o.framework == "restify" <;> cases he : o.framework == "express" <;>
      simp [renderDefaultTrace, countEv, countEv_append, isCloseEv, hv, hs, hr, he]

theorem countResume_renderDefault (o : Config) (sc : Option Nat) :
    countEv isResumeEv (renderDefaultTrace o sc) = 0 := by
  cases hv : o.defaultView <;> cases hs : o.defaultStatic <;>
    cases hr : o.framework == "restify" <;> cases he : o.framework == "express" <;>
      simp [renderDefaultTrace, countEv, countEv_append, isResumeEv, hv, hs, hr, he]

theorem resumeOrCloseTrace_continue (o : Config) (st : Option Nat)
    (h : isClientErrorOpt st = true) :
    resumeOrCloseTrace o st = [Event.resumeOrCloseEv st] := by
  simp [resumeOrCloseTrace, h]

theorem countView_resumeOrClose (o : Config) (st : Option Nat) :
    countEv isRenderViewEv (resumeOrCloseTrace o st) = 0 := by
  cases h : (!(isClientErrorOpt st) && !(isMaintenance o st)) <;>
    simp [resumeOrCloseTrace, countEv, isRenderViewEv, h, countView_closeTrace]

theorem countClose_dispatch_client (o : Config) (s : Nat)
    (hcl : isClientErrorOpt (some s) = true) :
    countEv isCloseEv (dispatchTrace o (some s)) = 0 := by
  unfold dispatchTrace
  cases hh : lookupHandlers o.handlers (some s) with
  | true => simp [resumeOrCloseTrace, countEv, isCloseEv, hcl]
  | false =>
    cases hv : lookupOpt o.views (some s) with
    | some v => simp [resumeOrCloseTrace, countEv, isCloseEv, hcl]
    | none =>
      cases hst : lookupOpt o.static (some s) with
      | some f => simp [resumeOrCloseTrace, countEv, isCloseEv, hcl]
      | none => simp [hcl, countClose_renderDefault]

theorem maintStep_preserves_none (st : MaintAPIState) (op : MaintOp)
    (hst : st.maintEnabledSlot = none) (hop : isCreateHandlerOp op = false) :
    (maintStep st op).maintEnabledSlot = none := by
  cases op with
  | createHandlerOp e => simp [isCreateHandlerOp] at hop
  | maintMiddlewareCtorOp m => simpa [maintStep] using hst
  | setEnvOp v => simpa [maintStep] using hst
  | statusSetOp s => simp [maintStep, maintenanceStatus, hst]

theorem foldl_maintStep_preserves_none (ops : List MaintOp) (st : MaintAPIState)
    (hst : st.maintEnabledSlot = none)
    (h : ops.all (fun op => !(isCreateHandlerOp op)) = true) :
    (List.foldl maintStep st ops).maintEnabledSlot = none := by
  induction ops generalizing st with
  | nil => simpa using hst
  | cons op rest ih =>
    simp only [List.all_cons, Bool.and_eq_true, Bool.not_eq_true'] at h
    exact ih (maintStep st op) (maintStep_preserves_none st op hst h.1)
      (by simpa using h.2)

theorem statusQueryB_of_none (st : MaintAPIState) (hst : st.maintEnabledSlot = none) :
    statusQueryB st = false := by
  simp [statusQueryB, maintenanceStatus, hst]

theorem countView_exitTrace (o : Config) : countEv isRenderViewEv (exitTrace o) = 0 := by
  cases h : o.shutdownOverride <;> simp [exitTrace, h, countEv, isRenderViewEv]

theorem countView_dispatch_handler (o : Config) (s : Nat) (hh : o.handlers s = true) :
    countEv isRenderViewEv (dispatchTrace o (some s)) = 0 := by
  unfold dispatchTrace
  simp [lookupHandlers, hh, resumeOrCloseTrace, countEv, isRenderViewEv,
    apply_ite (countEv isRenderViewEv), countView_closeTrace, countView_exitTrace]

/-! ### Claim theorems -/

/-- Claim C1: `isClientError` holds exactly on [400,499], and when the
error handler resolves an error whose derived status lies in [400,499]
the shutdown coordinator (`close`) is never entered, whatever the
configuration, error object and response object are. -/
theorem spec_c1 :
    (∀ s : Nat, isClientError s = true ↔ (400 ≤ s ∧ s ≤ 499)) ∧
    (∀ (o : Config) (err : Option Err) (res : Option Res) (s : Nat),
      derivedStatus err res = some s → 400 ≤ s → s ≤ 499 →
      countEv isCloseEv (errorHandlerTrace o err res) = 0) := by
  constructor
  · intro s; simp [isClientError]
  · intro o err res s hs h1 h2
    have hcl : isClientErrorOpt (some s) = true := isClientErrorOpt_true_of h1 h2
    cases res with
    | none =>
      simp only [errorHandlerTrace]
      rw [hs]
      simp [resumeOrCloseTrace, countEv, isCloseEv, hcl]
    | some r =>
      simp only [errorHandlerTrace]
      rw [hs]
      rw [countEv_append]
      cases hm : isMaintenance o (some s) <;>
        simp [hm, countEv, isCloseEv, countClose_dispatch_client o s hcl]

theorem spec_c1_witness :
    (isClientError 404 = true ↔ (400 ≤ 404 ∧ 404 ≤ 499)) ∧
    countEv isCloseEv (errorHandlerTrace cfg0 (some err404) (some res0)) = 0 :=
  ⟨spec_c1.1 404,
    spec_c1.2 cfg0 (some err404) (some res0) 404 (by decide) (by decide) (by decide)⟩

/-- Claim C2: for a derived status in [500,599] that is not a
maintenance condition, with no custom handler, view or static file
registered for that status, the handler renders the default response
forced to status 500 and then enters the shutdown coordinator exactly
once, and `resumeOrClose` (the continue/shutdown predicate) is never
evaluated on that path. -/
theorem spec_c2 (o : Config) (err : Option Err) (r : Res) (s : Nat)
    (hs : derivedStatus err (some r) = some s)
    (h5 : 500 ≤ s) (h9 : s ≤ 599)
    (hm : isMaintenance o (some s) = false)
    (hh : o.handlers s = false) (hv : o.views s = none) (hst : o.static s = none) :
    errorHandlerTrace o err (some r) =
      Event.setStatusEv (some s) :: (renderDefaultTrace o (some 500) ++ closeTrace o) ∧
    countEv isCloseEv (errorHandlerTrace o err (some r)) = 1 ∧
    countEv isResumeEv (errorHandlerTrace o err (some r)) = 0 := by
  have hcl : isClientErrorOpt (some s) = false := isClientErrorOpt_false_of h5
  have htrace : errorHandlerTrace o err (some r) =
      Event.setStatusEv (some s) :: (renderDefaultTrace o (some 500) ++ closeTrace o) := by
    simp only [errorHandlerTrace]
    rw [hs]
    simp [hm, dispatchTrace, lookupHandlers, lookupOpt, hh, hv, hst, hcl]
  refine ⟨htrace, ?_, ?_⟩
  · rw [htrace]
    cases hdv : o.defaultView <;> cases hds : o.defaultStatic <;>
      cases hsc : o.serverHasClose <;> cases hso : o.shutdownOverride <;>
        simp [countEv, countEv_append, isCloseEv, renderDefaultTrace, closeTrace, exitTrace,
          hdv, hds, hsc, hso, apply_ite (countEv isCloseEv)]
  · rw [htrace]
    cases hdv : o.defaultView <;> cases hds : o.defaultStatic <;>
      cases hsc : o.serverHasClose <;> cases hso : o.shutdownOverride <;>
        simp [countEv, countEv_append, isResumeEv, renderDefaultTrace, closeTrace, exitTrace,
          hdv, hds, hsc, hso, apply_ite (countEv isResumeEv)]

theorem spec_c2_witness :
    errorHandlerTrace cfg0 (some err511) (some res0) =
      Event.setStatusEv (some 511) :: (renderDefaultTrace cfg0 (some 500) ++ closeTrace cfg0) ∧
    countEv isCloseEv (errorHandlerTrace cfg0 (some err511) (some res0)) = 1 ∧
    countEv isResumeEv (errorHandlerTrace cfg0 (some err511) (some res0)) = 0 :=
  spec_c2 cfg0 (some err511) res0 511 (by decide) (by decide) (by decide)
    (by decide) (by decide) (by decide) (by decide)

/-- Claim C5: when both a custom handler and a custom view are
registered for the derived status, resolution takes the handler branch:
the handler is invoked and no view render happens anywhere in the
invocation. -/
theorem spec_c5 (o : Config) (err : Option Err) (r : Res) (s : Nat) (v : String)
    (hs : derivedStatus err (some r) = some s)
    (hh : o.handlers s = true) (hv : o.views s = some v) :
    Event.invokeHandlerEv (some s) ∈ errorHandlerTrace o err (some r) ∧
    countEv isRenderViewEv (errorHandlerTrace o err (some r)) = 0 := by
  constructor
  · simp only [errorHandlerTrace]
    rw [hs]
    simp [dispatchTrace, lookupHandlers, hh]
  · simp only [errorHandlerTrace]
    rw [hs]
    rw [countEv_append]
    cases hm : isMaintenance o (some s) <;>
      simp [hm, countEv, isRenderViewEv, countView_dispatch_handler o s hh]

theorem spec_c5_witness :
    Event.invokeHandlerEv (some 404) ∈ errorHandlerTrace cfgC5 (some err404) (some res0) ∧
    countEv isRenderViewEv (errorHandlerTrace cfgC5 (some err404) (some res0)) = 0 :=
  spec_c5 cfgC5 (some err404) res0 404 "err404view" (by decide) (by decide) (by decide)

/-- Claim C3, counterexample: in error-handler.js, with a static file
registered for status 500, the whole invocation trace is synchronous and
it contains the `resumeOrClose` evaluation (and the shutdown) immediately
after the transfer is initiated — the continue/shutdown decision is not
deferred to end-of-stream. -/
theorem spec_c3_counterexample :
    errorHandlerTrace cfgC3 (some errC3) (some res0) =
      [Event.setStatusEv (some 500), Event.sendFileEv "500.html",
       Event.resumeOrCloseEv (some 500), Event.closeEv, Event.armTimerEv 3000 1] ∧
    0 < countEv isResumeEv (errorHandlerTrace cfgC3 (some errC3) (some res0)) := by
  decide

/-- Claim C3, amended: in the part_002 variant the claim holds — with a
static file registered for the derived status (and no handler or view),
the synchronous part of the invocation only initiates the transfer and
never evaluates `resumeOrClose`; the continue/shutdown decision is
exactly what the registered end-of-stream callback runs.  In
error-handler.js itself the decision is evaluated synchronously right
after the transfer is initiated. -/
theorem spec_c3 (o : Config) (err : Option Err) (r : Res) (s : Nat) (f : String)
    (hs : derivedStatus err (some r) = some s)
    (hh : o.handlers s = false) (hv : o.views s = none) (hst : o.static s = some f) :
    (errorHandlerTraceP2 o err (some r)).sync =
      [Event.setStatusEv (some s), Event.sendFileEv f] ∧
    countEv isResumeEv (errorHandlerTraceP2 o err (some r)).sync = 0 ∧
    (errorHandlerTraceP2 o err (some r)).onStreamEnd = resumeOrCloseTraceP2 o (some s) := by
  have htr : errorHandlerTraceP2 o err (some r) =
      ⟨[Event.setStatusEv (some s), Event.sendFileEv f], resumeOrCloseTraceP2 o (some s)⟩ := by
    simp only [errorHandlerTraceP2]
    rw [hs]
    simp [lookupHandlers, lookupOpt, hh, hv, hst]
  rw [htr]
  simp [countEv, isResumeEv]

theorem spec_c3_witness :
    (errorHandlerTraceP2 cfgC3 (some errC3) (some res0)).sync =
      [Event.setStatusEv (some 500), Event.sendFileEv "500.html"] ∧
    countEv isResumeEv (errorHandlerTraceP2 cfgC3 (some errC3) (some res0)).sync = 0 ∧
    (errorHandlerTraceP2 cfgC3 (some errC3) (some res0)).onStreamEnd =
      resumeOrCloseTraceP2 cfgC3 (some 500) :=
  spec_c3 cfgC3 (some errC3) res0 500 "500.html" (by decide) (by decide) (by decide) (by decide)

/-- Claim C4, counterexample: with a shutdown override set AND a closable
server configured, `close` calls `server.close` and then exits the
process directly from its `finally` block; the override is never invoked,
so the coordinator does not delegate termination entirely to the
override. -/
theorem spec_c4_counterexample :
    cfgC4.shutdownOverride = true ∧
    closeTrace cfgC4 = [Event.closeEv, Event.serverCloseEv, Event.processExitEv 1] ∧
    countEv isProcessExitEv (closeTrace cfgC4) = 1 ∧
    Event.shutdownOverrideEv ∉ closeTrace cfgC4 := by
  decide

/-- Claim C4, amended: when a shutdown override is set and no closable
server is configured, the shutdown coordinator delegates entirely to the
override: it performs no direct process exit and arms no default timeout
timer. -/
theorem spec_c4 (o : Config)
    (h1 : o.shutdownOverride = true) (h2 : o.serverHasClose = false) :
    closeTrace o = [Event.closeEv, Event.shutdownOverrideEv] ∧
    countEv isProcessExitEv (closeTrace o) = 0 ∧
    countEv isArmTimerEv (closeTrace o) = 0 := by
  simp [closeTrace, exitTrace, h1, h2, countEv, isProcessExitEv, isArmTimerEv]

theorem spec_c4_witness :
    closeTrace cfgC4b = [Event.closeEv, Event.shutdownOverrideEv] ∧
    countEv isProcessExitEv (closeTrace cfgC4b) = 0 ∧
    countEv isArmTimerEv (closeTrace cfgC4b) = 0 :=
  spec_c4 cfgC4b (by decide) (by decide)

/-- Claim C6: the default `retryAfter` source examples — "7200" yields
the integer 7200; the RFC2822 date string (which `Date.parse` accepts,
at a nonzero timestamp) is returned verbatim; "-5", "0", an unparseable
value, or an absent value collapse to the fallback 3600; more generally
every non-positive integer parse collapses to 3600, every value neither
`parseInt` nor `Date.parse` accepts collapses to 3600, and every integer
result is strictly positive. -/
theorem spec_c6 (dp : String → Option Int) (t : Int)
    (hd : dp "Fri, 31 Dec 1999 23:59:59 GMT" = some t) (ht : ¬ t = 0)
    (hu : dp "not-a-date" = none) :
    maintenanceRetryAfter (some "7200") dp = RetryVal.seconds 7200 ∧
    maintenanceRetryAfter (some "Fri, 31 Dec 1999 23:59:59 GMT") dp =
      RetryVal.date "Fri, 31 Dec 1999 23:59:59 GMT" ∧
    maintenanceRetryAfter (some "-5") dp = RetryVal.seconds 3600 ∧
    maintenanceRetryAfter (some "0") dp = RetryVal.seconds 3600 ∧
    maintenanceRetryAfter (some "not-a-date") dp = RetryVal.seconds 3600 ∧
    maintenanceRetryAfter none dp = RetryVal.seconds 3600 ∧
    (∀ (env : Option String) (m : Int), jsParseInt (jsStr env) = some m → m ≤ 0 →
      maintenanceRetryAfter env dp = RetryVal.seconds 3600) ∧
    (∀ v : String, jsParseInt v = none → dp v = none →
      maintenanceRetryAfter (some v) dp = RetryVal.seconds 3600) ∧
    (∀ (env : Option String) (n : Int),
      maintenanceRetryAfter env dp = RetryVal.seconds n → 0 < n) := by
  refine ⟨?_, ?_, ?_, ?_, ?_, ?_, ?_, ?_, ?_⟩
  · have h : jsParseInt (jsStr (some "7200")) = some 7200 := by decide
    simp [maintenanceRetryAfter, h]
  · have h : jsParseInt (jsStr (some "Fri, 31 Dec 1999 23:59:59 GMT")) = none := by decide
    simp [maintenanceRetryAfter, h, hd, ht]
  · have h : jsParseInt (jsStr (some "-5")) = some (-5) := by decide
    simp [maintenanceRetryAfter, h]
  · have h : jsParseInt (jsStr (some "0")) = some 0 := by decide
    simp [maintenanceRetryAfter, h]
  · have h : jsParseInt (jsStr (some "not-a-date")) = none := by decide
    simp [maintenanceRetryAfter, h, hu]
  · have h : jsParseInt (jsStr (none : Option String)) = none := by decide
    simp [maintenanceRetryAfter, h]
  · intro env m hp hm
    simp only [maintenanceRetryAfter, hp]
    have : m = 0 ∨ m < 0 := by omega
    simp [this]
  · intro v hp hdp
    simp [maintenanceRetryAfter, jsStr, hp, hdp]
  · intro env n h
    rcases hp : jsParseInt (jsStr env) with _ | m
    · simp only [maintenanceRetryAfter, hp] at h
      cases env with
      | none => simp at h; omega
      | some v =>
        rcases hdp : dp v with _ | u
        · simp [hdp] at h; omega
        · simp only [hdp] at h
          by_cases hu0 : u = 0
          · simp [hu0] at h; omega
          · simp [hu0] at h
    · simp only [maintenanceRetryAfter, hp] at h
      by_cases hm : m = 0 ∨ m < 0
      · simp [hm] at h; omega
      · simp [hm] at h; omega

theorem spec_c6_witness :
    maintenanceRetryAfter (some "7200") dp0 = RetryVal.seconds 7200 ∧
    maintenanceRetryAfter (some "Fri, 31 Dec 1999 23:59:59 GMT") dp0 =
      RetryVal.date "Fri, 31 Dec 1999 23:59:59 GMT" ∧
    maintenanceRetryAfter (some "0") dp0 = RetryVal.seconds 3600 :=
  have h := spec_c6 dp0 946684799000 (by decide) (by decide) (by decide)
  ⟨h.1, h.2.1, h.2.2.2.1⟩

/-- Claim C7, counterexample: the default enabled predicate actually
installed by error-handler.js (`maintenanceState`) returns true for the
values "yes" and "1", although neither equals "true" after trimming and
lowercasing; the equals-"true" rule is only the part_002 variant's
default. -/
theorem spec_c7_counterexample :
    maintenanceStateRead (some "yes") = true ∧
    maintenanceStateRead (some "1") = true ∧
    maintStatusDefaultP2 (some "yes") = false ∧
    maintStatusDefaultP2 (some "1") = false := by
  decide

/-- Claim C7, amended: the part_002 default `status` returns true iff
the trimmed, lowercased flag value equals "true"; but error-handler.js's
default (`maintenanceState`) returns true iff the value is present,
nonempty, and its lowercase form is none of "0", "false", "no",
"undefined" — so values such as "yes" or "1" enable maintenance there. -/
theorem spec_c7 :
    maintenanceStateRead none = false ∧
    (∀ v : String, maintenanceStateRead (some v) = true ↔
      (¬ v = "" ∧ ¬ jsToLower v = "0" ∧ ¬ jsToLower v = "false" ∧
        ¬ jsToLower v = "no" ∧ ¬ jsToLower v = "undefined")) ∧
    (∀ env : Option String,
      maintStatusDefaultP2 env = true ↔ jsToLower (jsTrim (jsStr env)) = "true") := by
  refine ⟨rfl, ?_, ?_⟩
  · intro v
    simp [maintenanceStateRead, isNegativeKey, not_or]
    tauto
  · intro env
    simp [maintStatusDefaultP2]

theorem spec_c7_witness :
    (maintenanceStateRead (some "TRUE") = true ↔
      (¬ "TRUE" = "" ∧ ¬ jsToLower "TRUE" = "0" ∧ ¬ jsToLower "TRUE" = "false" ∧
        ¬ jsToLower "TRUE" = "no" ∧ ¬ jsToLower "TRUE" = "undefined")) ∧
    (maintStatusDefaultP2 (some " TRUE ") = true ↔
      jsToLower (jsTrim (jsStr (some " TRUE "))) = "true") :=
  ⟨spec_c7.2.1 "TRUE", spec_c7.2.2 (some " TRUE ")⟩

/-- Claim C8: whenever the active maintenance policy is an override (a
function other than the default `maintenanceState`), calling
`maintenance.status` with a state argument throws the courtesy error
instead of setting the state or returning normally. -/
theorem spec_c8 (b : Bool) (env : Option String) (state : String) :
    maintenanceStatus ⟨some (MaintFn.overrideFn b), env⟩ (some state) =
      Except.error maintOverrideMsg :=
  rfl

theorem spec_c8_witness :
    maintenanceStatus ⟨some (MaintFn.overrideFn true), some "TRUE"⟩ (some "false") =
      Except.error maintOverrideMsg :=
  spec_c8 true (some "TRUE") "false"

/-- Claim C9, counterexample: a process state reached without ever
constructing a maintenance middleware, but in which `createHandler` ran
with default options and the enabled flag env value is "TRUE", makes the
status query report true — not false unconditionally. -/
theorem spec_c9_counterexample :
    opsC9.all (fun op => !(isMaintMiddlewareCtor op)) = true ∧
    statusQueryB (List.foldl maintStep (initMaintState none) opsC9) = true := by
  decide

/-- Claim C9, amended: before any `createHandler` invocation (which is
what installs the active policy into `maintenance._maintEnabled`), the
status query returns false unconditionally, whatever the initial
environment and whatever other operations (middleware construction,
environment writes, status sets) have run. -/
theorem spec_c9 (env0 : Option String) (ops : List MaintOp)
    (h : ops.all (fun op => !(isCreateHandlerOp op)) = true) :
    statusQueryB (List.foldl maintStep (initMaintState env0) ops) = false :=
  statusQueryB_of_none _ (foldl_maintStep_preserves_none ops (initMaintState env0) rfl h)

theorem spec_c9_witness :
    statusQueryB (List.foldl maintStep (initMaintState (some "TRUE")) opsC9b) = false :=
  spec_c9 (some "TRUE") opsC9b (by decide)

/-- Claim C10: when the options carry a framework that is neither
"express" nor "restify", `createHandler` returns undefined (neither the
express handler nor the restify adapter, and no error). -/
theorem spec_c10 (fw : String) (h1 : ¬ fw = "express") (h2 : ¬ fw = "restify") :
    createHandlerResult (some fw) = HandlerKind.undefKind := by
  simp [createHandlerResult, mixedFramework, h1, h2]

theorem spec_c10_witness :
    createHandlerResult (some "koa") = HandlerKind.undefKind :=
  spec_c10 "koa" (by decide) (by decide)

end EEH
